import Mathlib

/-!
Shallow embedding of the `http_client` repository's effect core and HTTP
layer, and proofs about the spec's claims.

Source files embedded here:
  - `include/result_monad.hpp`   (struct `Error`, `Result<T,E>`, `Result<void,E>`)
  - `include/io_monad.hpp`       (`IO<T>` combinators: `map`, `then`,
     `catch_then`, `timeout`, `delay`, `retry_exponential_if`, `poll_if`)
  - `include/io_monad_poll_with_state.hpp` (`PollControl`, `handle_result`)
  - `include/http_client_manager.hpp` (redirect follower of `http_request`)
  - `include/http_client_monad.hpp` (`should_bypass_env_proxy_for_url`)
  - `include/http_client_config_provider.hpp` (`ProxySetting` equality/hash,
     `HttpclientConfig` JSON parsing)

The C++ `IO<T>` is a thunk `(Callback) -> void`; each combinator wraps the
predecessor's delivered `Result` in a continuation.  The embedding models
each combinator's continuation directly: given the value(s) the callbacks
receive, it computes the list of callback invocations that the combinator
performs.  Timer-based combinators are additionally parameterised by the
schedule (which completion handler runs first) and by the timer's completion
outcome (success or error code), exactly the non-determinism the asio
`steady_timer` exposes to the code.
-/

namespace monad

/-- Embedding of `monad::Error` (result_monad.hpp, lines 36-54).  The JSON
payload fields (`params`, `content_type`, `alternative_body`) are never
inspected by the claims and carry no behaviour in the embedded code paths,
so only the scalar fields are modelled.  `Error{code, what}` in C++ leaves
`key` empty and `response_status` at its member default 500. -/
structure Error where
  code : Int
  what : String
  key : String := ""
  response_status : Int := 500
  deriving Repr, DecidableEq

/-- Embedding of `monad::Result<T,E>` (result_monad.hpp, line 109): a
`std::variant<T, E>` that is `Ok` or `Err`. -/
inductive Result (T E : Type) where
  | Ok (v : T)
  | Err (e : E)
  deriving Repr, DecidableEq

/-- Outcome of a C++ accessor call: a defined value, a thrown exception
(with the exception type as diagnostic), or undefined behaviour. -/
inductive AccessOutcome (A : Type) where
  | ok (v : A)
  | throws (diagnostic : String)
  | undefined
  deriving Repr, DecidableEq

/-- Modelled from the spec: "accessors for the wrong state ... must fail
loudly (not silently return a default)" / "must abort with a diagnostic
(not return garbage)".  An access fails loudly exactly when it raises a
diagnosed exception. -/
def fails_loudly_spec {A : Type} : AccessOutcome A → Bool
  | .throws _ => true
  | _ => false

namespace Result

/-- `Result<T,E>::is_ok` (result_monad.hpp, line 128): `holds_alternative<T>`. -/
def is_ok {T E : Type} : Result T E → Bool
  | .Ok _ => true
  | .Err _ => false

/-- `Result<T,E>::is_err` (result_monad.hpp, line 131): `holds_alternative<E>`. -/
def is_err {T E : Type} : Result T E → Bool
  | .Ok _ => false
  | .Err _ => true

/-- `Result<T,E>::value` (result_monad.hpp, line 136): `std::get<T>(data_)`,
which returns the value in the Ok state and throws `std::bad_variant_access`
in the Err state. -/
def value {T E : Type} : Result T E → AccessOutcome T
  | .Ok v => .ok v
  | .Err _ => .throws "std::bad_variant_access"

/-- `Result<T,E>::error` (result_monad.hpp, line 142): `std::get<E>(data_)`,
which returns the error in the Err state and throws `std::bad_variant_access`
in the Ok state. -/
def error {T E : Type} : Result T E → AccessOutcome E
  | .Ok _ => .throws "std::bad_variant_access"
  | .Err e => .ok e

/-- `Result<T,E>::ok_ptr` (result_monad.hpp, line 149): `std::get_if<T>`,
null (`none`) in the wrong state, never throwing. -/
def ok_ptr {T E : Type} : Result T E → Option T
  | .Ok v => some v
  | .Err _ => none

/-- `Result<T,E>::err_ptr` (result_monad.hpp, line 155): `std::get_if<E>`,
null (`none`) in the wrong state, never throwing. -/
def err_ptr {T E : Type} : Result T E → Option E
  | .Ok _ => none
  | .Err e => some e

end Result

/-- Embedding of the specialisation `monad::Result<void,E>`
(result_monad.hpp, line 305): it stores only `std::optional<E> error_`. -/
structure VoidResult (E : Type) where
  error_ : Option E
  deriving Repr, DecidableEq

namespace VoidResult

/-- `Result<void,E>::Ok` (result_monad.hpp, line 314): default construction,
`error_` empty. -/
def Ok {E : Type} : VoidResult E := ⟨none⟩

/-- `Result<void,E>::Err` (result_monad.hpp, line 316): stores the error. -/
def Err {E : Type} (e : E) : VoidResult E := ⟨some e⟩

/-- `Result<void,E>::is_ok` (result_monad.hpp, line 322): `!error_.has_value()`. -/
def is_ok {E : Type} (r : VoidResult E) : Bool := !r.error_.isSome

/-- `Result<void,E>::is_err` (result_monad.hpp, line 325): `error_.has_value()`. -/
def is_err {E : Type} (r : VoidResult E) : Bool := r.error_.isSome

/-- `Result<void,E>::error` (result_monad.hpp, line 329): `return *error_;`.
`std::optional::operator*` returns the stored error when one is present and
is undefined behaviour when `error_` is empty (it performs no check and
throws nothing). -/
def error {E : Type} : VoidResult E → AccessOutcome E
  | ⟨some e⟩ => .ok e
  | ⟨none⟩ => .undefined

end VoidResult

/-! The `IO<T>` combinators of io_monad.hpp.  An `IO<T>` is a thunk that is
given a callback `cb : Result<T,Error> -> void`.  Every combinator below is
embedded as the function from the result(s) delivered to its internal
callbacks to the result(s) it passes to `cb`.  A user function that C++ may
observe throwing is modelled as `Except String _`, where `.error msg` is a
thrown `std::exception` with `what() = msg`. -/

/-- Continuation of `IO<T>::map` (io_monad.hpp, lines 74-102): given the
predecessor's delivered result `r` and the user function `f` (which may
throw), the result passed to `cb`.  On Ok, `f` is applied inside a
`try`/`catch` producing `Err{-1, e.what()}` on throw; on Err, the error is
forwarded unchanged and `f` is not invoked. -/
def map_run {T U : Type} (r : Result T Error) (f : T → Except String U) :
    Result U Error :=
  match r with
  | .Ok v =>
    match f v with
    | .ok u => .Ok u
    | .error msg => .Err { code := -1, what := msg }
  | .Err e => .Err e

/-- Continuation of `IO<T>::then` (io_monad.hpp, lines 104-123): on Ok the
user function produces an inner `IO<U>` which is run with the same `cb`
(modelled by the result that inner `IO` delivers); a throw from `f` produces
`Err{-2, e.what()}`; on Err the error is forwarded. -/
def then_run {T U : Type} (r : Result T Error)
    (f : T → Except String (Result U Error)) : Result U Error :=
  match r with
  | .Ok v =>
    match f v with
    | .ok inner => inner
    | .error msg => .Err { code := -2, what := msg }
  | .Err e => .Err e

/-- Continuation of `IO<T>::catch_then` (io_monad.hpp, lines 125-140): runs
the recovery function only on Err, forwarding a throw as `Err{-3, e.what()}`;
Ok results pass through unchanged. -/
def catch_then_run {T : Type} (r : Result T Error)
    (f : Error → Except String (Result T Error)) : Result T Error :=
  match r with
  | .Err e =>
    match f e with
    | .ok inner => inner
    | .error msg => .Err { code := -3, what := msg }
  | .Ok v => .Ok v

/-- Completion outcome of an asio `steady_timer::async_wait`: the handler
runs either with `ec == 0` (`fires`) or with a non-zero error code whose
`message()` is `msg` (`errors msg`). -/
inductive TimerEvent where
  | fires
  | errors (msg : String)
  deriving Repr, DecidableEq

/-- Which of the two completion handlers of `timeout`/`delay` the executor
runs first: the timer's handler or the wrapped IO's completion handler. -/
inductive Arrival where
  | timer_first
  | self_first
  deriving Repr, DecidableEq

/-- Timer handler of `IO<T>::timeout` (io_monad.hpp, lines 187-193): given
the shared `fired` flag, returns the updated flag and the callback
invocations it performs.  Note the handler sets `fired` and then invokes
`cb` only when `ec == 0`; on a timer error it sets `fired` and returns
without invoking `cb`. -/
def timeout_timer_handler {T : Type} (tev : TimerEvent) (fired : Bool) :
    Bool × List (Result T Error) :=
  if fired then (fired, [])
  else
    (true,
      match tev with
      | .fires => [.Err { code := 2, what := "Operation timed out" }]
      | .errors _ => [])

/-- Completion handler that `IO<T>::timeout` installs on the wrapped IO
(io_monad.hpp, lines 195-200): delivers the result unless `fired` is set. -/
def timeout_self_handler {T : Type} (r : Result T Error) (fired : Bool) :
    Bool × List (Result T Error) :=
  if fired then (fired, [])
  else (true, [r])

/-- Run of `IO<T>::timeout` (io_monad.hpp, lines 179-202) under a given
schedule: `r` is the result the wrapped IO delivers, `tev` the outcome with
which the timer's handler runs, `order` which handler the executor runs
first.  Returns the list of invocations of the outer callback `cb`. -/
def timeout_run {T : Type} (order : Arrival) (tev : TimerEvent)
    (r : Result T Error) : List (Result T Error) :=
  match order with
  | .timer_first =>
    let p := timeout_timer_handler (T := T) tev false
    let q := timeout_self_handler r p.1
    p.2 ++ q.2
  | .self_first =>
    let p := timeout_self_handler r false
    let q := timeout_timer_handler (T := T) tev p.1
    p.2 ++ q.2

/-- Shared state of `IO<T>::delay` (io_monad.hpp, lines 241-244): the stored
result, the `delivered` flag and the `timer_fired` flag. -/
structure DelayState (T : Type) where
  delivered : Bool
  timer_fired : Bool
  result : Option (Result T Error)
  deriving Repr, DecidableEq

/-- Timer handler of `IO<T>::delay` (io_monad.hpp, lines 247-261): a timer
error delivers `Err{1, "Timer error: " + ec.message()}`; success marks
`timer_fired` and delivers the stored result if the wrapped IO already
completed. -/
def delay_timer_handler {T : Type} (tev : TimerEvent) (st : DelayState T) :
    DelayState T × List (Result T Error) :=
  if st.delivered then (st, [])
  else
    match tev with
    | .errors msg =>
      ({ st with delivered := true },
        [.Err { code := 1, what := "Timer error: " ++ msg }])
    | .fires =>
      let st1 := { st with timer_fired := true }
      match st1.result with
      | some r => ({ st1 with delivered := true }, [r])
      | none => (st1, [])

/-- Completion handler `IO<T>::delay` installs on the wrapped IO
(io_monad.hpp, lines 263-270): stores the result; delivers it only if the
timer already fired. -/
def delay_self_handler {T : Type} (r : Result T Error) (st : DelayState T) :
    DelayState T × List (Result T Error) :=
  if st.delivered then (st, [])
  else
    let st1 := { st with result := some r }
    if st1.timer_fired then ({ st1 with delivered := true }, [r])
    else (st1, [])

/-- Run of `IO<T>::delay` (io_monad.hpp, lines 237-272) under a given
schedule, returning the list of invocations of the outer callback. -/
def delay_run {T : Type} (order : Arrival) (tev : TimerEvent)
    (r : Result T Error) : List (Result T Error) :=
  let st0 : DelayState T := ⟨false, false, none⟩
  match order with
  | .timer_first =>
    let p := delay_timer_handler tev st0
    let q := delay_self_handler r p.1
    p.2 ++ q.2
  | .self_first =>
    let p := delay_self_handler r st0
    let q := delay_timer_handler tev p.1
    p.2 ++ q.2

/-- Loop body `do_attempt` / `handle_result` of `IO<T>::poll_if`
(io_monad.hpp, lines 397-499), with the interval timers completing
successfully.  `results k` is the result the `k`-th execution of the
underlying IO delivers (the IO is cloned and re-run each attempt, so
successive runs may differ).  `attempt` is the current value of the
`*attempt` counter and `fuel` is an upper bound on the remaining loop
iterations; the entry point `poll_if_run` supplies `fuel = max_attempts.toNat`
so that `fuel = 0` coincides with the guard `*attempt >= max_attempts` and
the inner `fuel = 0` fallback is unreachable.  Returns the number of times
the underlying IO was run and the single result delivered to `cb`. -/
def poll_if_go {T : Type} (results : Nat → Result T Error)
    (satisfied : T → Bool) (retry_on_error : Error → Bool)
    (max_attempts : Int) : Nat → Nat → Nat × Result T Error
  | fuel, attempt =>
    if max_attempts ≤ (attempt : Int) then
      (0, .Err { code := 3, what := "Polling attempts exhausted" })
    else
      match fuel with
      | 0 => (0, .Err { code := 3, what := "Polling attempts exhausted" })
      | fuel' + 1 =>
        let attempt' := attempt + 1
        match results attempt' with
        | .Ok v =>
          if satisfied v then (1, .Ok v)
          else
            let p := poll_if_go results satisfied retry_on_error max_attempts
              fuel' attempt'
            (p.1 + 1, p.2)
        | .Err e =>
          if !retry_on_error e || max_attempts ≤ (attempt' : Int) then
            (1, .Err e)
          else
            let p := poll_if_go results satisfied retry_on_error max_attempts
              fuel' attempt'
            (p.1 + 1, p.2)

/-- Entry point of `IO<T>::poll_if` (io_monad.hpp, line 497): the attempt
counter starts at 0 and `(*do_attempt)()` is invoked once. -/
def poll_if_run {T : Type} (results : Nat → Result T Error)
    (satisfied : T → Bool) (retry_on_error : Error → Bool)
    (max_attempts : Int) : Nat × Result T Error :=
  poll_if_go results satisfied retry_on_error max_attempts
    max_attempts.toNat 0

/-- Loop body `try_run` of `IO<T>::retry_exponential_if` (io_monad.hpp,
lines 319-382), with the backoff timers completing successfully.  `try_run`
increments the attempt counter, runs the IO, and delivers the result when it
is Ok, the attempt counter has reached `max_attempts`, or `should_retry`
rejects the error; otherwise it waits `current_delay` and re-enters with the
delay doubled.  `fuel` bounds the iterations exactly as in `poll_if_go`. -/
def retry_exponential_go {T : Type} (results : Nat → Result T Error)
    (should_retry : Error → Bool) (max_attempts : Int) :
    Nat → Nat → Nat → Nat × Result T Error
  | fuel, attempt, current_delay =>
    let attempt' := attempt + 1
    match results attempt' with
    | .Ok v => (1, .Ok v)
    | .Err e =>
      if max_attempts ≤ (attempt' : Int) || !should_retry e then
        (1, .Err e)
      else
        match fuel with
        | 0 => (1, .Err e)
        | fuel' + 1 =>
          let p := retry_exponential_go results should_retry max_attempts
            fuel' attempt' (current_delay * 2)
          (p.1 + 1, p.2)

/-- Entry point of `IO<T>::retry_exponential_if` (io_monad.hpp, line 380):
`(*state->try_run)(initial_delay)` with the attempt counter at 0.  Note that
`try_run` runs the IO before any comparison against `max_attempts`. -/
def retry_exponential_run {T : Type} (results : Nat → Result T Error)
    (should_retry : Error → Bool) (max_attempts : Int)
    (initial_delay : Nat) : Nat × Result T Error :=
  retry_exponential_go results should_retry max_attempts
    max_attempts.toNat 0 initial_delay

/-- `monad::PollControl::Kind` (io_monad_poll_with_state.hpp, lines 17-21). -/
inductive PollControlKind where
  | done
  | retry
  | fail
  deriving Repr, DecidableEq

/-- `monad::PollControl` (io_monad_poll_with_state.hpp, lines 16-37). -/
structure PollControl where
  kind : PollControlKind
  retry_after : Option Nat
  fail_error : Option Error
  deriving Repr, DecidableEq

/-- `PollControl::done()` (io_monad_poll_with_state.hpp, line 27). -/
def PollControl.mk_done : PollControl := ⟨.done, none, none⟩

/-- `PollControl::retry(delay)` (io_monad_poll_with_state.hpp, line 29). -/
def PollControl.mk_retry (delay : Option Nat) : PollControl :=
  ⟨.retry, delay, none⟩

/-- `PollControl::fail(err)` (io_monad_poll_with_state.hpp, line 33). -/
def PollControl.mk_fail (err : Error) : PollControl := ⟨.fail, none, some err⟩

/-- Action `handle_result` of `poll_with_state` takes after consulting
`decide`: deliver a final result to `cb`, or schedule a retry timer with the
given delay. -/
inductive HandleOutcome (T : Type) where
  | deliver (r : Result T Error)
  | schedule_retry (delay : Nat)
  deriving Repr, DecidableEq

/-- Embedding of `handle_result` in `detail::poll_with_state_impl`
(io_monad_poll_with_state.hpp, lines 116-188).  `decide_result` is what
`(*decide_ptr)(attempt_no, *state, r)` does: returns a `PollControl` or
throws (`.error msg`); a throw delivers `Err{-1, msg}`.  On `done` the job's
result is delivered as-is.  On `fail` the delivered error is the control's
explicit error if present, else the job's error if the job failed, else
`Err{2, "poll_with_state: fail requested without error"}`.  On `retry` with
`attempt_no >= max_attempts` the `on_exhausted` callback's outcome is
delivered (its own throw becoming `Err{-1, msg}`); otherwise a retry is
scheduled after `retry_after.value_or(default_interval)`.  The diagnostic
hooks and the cleanup calls do not affect the delivered value and are not
modelled. -/
def handle_result {T : Type} (max_attempts : Int) (default_interval : Nat)
    (attempt_no : Int) (decide_result : Except String PollControl)
    (on_exhausted_result : Except String Error) (r : Result T Error) :
    HandleOutcome T :=
  match decide_result with
  | .error msg => .deliver (.Err { code := -1, what := msg })
  | .ok ctrl =>
    match ctrl.kind with
    | .done =>
      match r with
      | .Ok v => .deliver (.Ok v)
      | .Err e => .deliver (.Err e)
    | .fail =>
      let err :=
        match ctrl.fail_error with
        | some e => e
        | none =>
          match r with
          | .Err e => e
          | .Ok _ =>
            { code := 2, what := "poll_with_state: fail requested without error" }
      .deliver (.Err err)
    | .retry =>
      if max_attempts ≤ attempt_no then
        match on_exhausted_result with
        | .ok err => .deliver (.Err err)
        | .error msg => .deliver (.Err { code := -1, what := msg })
      else .schedule_retry (ctrl.retry_after.getD default_interval)

end monad

namespace cjj365

/-- Embedding of `cjj365::ProxySetting` (http_client_config_provider.hpp,
lines 63-105). -/
structure ProxySetting where
  host : String
  port : String
  username : String
  password : String
  disabled : Bool := false
  from_env : Bool := false
  deriving Repr, DecidableEq

/-- `ProxySetting::operator==` (http_client_config_provider.hpp, lines
73-77): compares the four string fields plus `disabled` and `from_env`. -/
def ProxySetting.eq (a b : ProxySetting) : Bool :=
  a.host == b.host && a.port == b.port && a.username == b.username &&
  a.password == b.password && a.disabled == b.disabled &&
  a.from_env == b.from_env

/-- Reduction modulo `2^64`, the value range of `std::size_t` on the
64-bit targets this library builds for. -/
def size_t_word (n : Nat) : Nat := n % 2 ^ 64

/-- Hash-combining expression of `std::hash<cjj365::ProxySetting>`
(http_client_config_provider.hpp, line 541):
`(((h1 ^ (h2 << 1)) >> 1) ^ (h3 << 1)) ^ (h4 << 1)` on `std::size_t`. -/
def hash_combine (h1 h2 h3 h4 : Nat) : Nat :=
  (((size_t_word h1 ^^^ size_t_word (h2 <<< 1)) >>> 1) ^^^
      size_t_word (h3 <<< 1)) ^^^
    size_t_word (h4 <<< 1)

/-- `std::hash<cjj365::ProxySetting>::operator()`
(http_client_config_provider.hpp, lines 535-542), parameterised by the
implementation-defined string hash `hs` standing for
`std::hash<std::string>`: it combines the hashes of `host`, `port`,
`username` and `password` only. -/
def ProxySetting.hash_value (hs : String → Nat) (p : ProxySetting) : Nat :=
  hash_combine (hs p.host) (hs p.port) (hs p.username) (hs p.password)

/-- Model of `boost::json::value`, restricted to the shapes the embedded
configuration parser inspects.  Numbers are modelled as integers because the
parser only reads them through `to_number<int>` / `to_number<int64_t>`. -/
inductive Json where
  | null
  | bool (b : Bool)
  | num (n : Int)
  | str (s : String)
  | arr (elems : List Json)
  | obj (fields : List (String × Json))

/-- Lookup of a key in a JSON object's field list, as
`boost::json::object::if_contains` / `find`: the first binding wins. -/
def json_field? (fields : List (String × Json)) (k : String) : Option Json :=
  match fields with
  | [] => none
  | (k', v) :: rest => if k' = k then some v else json_field? rest k

/-- `boost::json::object::at(k)`: the value at `k`, throwing
(`std::out_of_range`) when the key is absent. -/
def json_at (fields : List (String × Json)) (k : String) :
    Except String Json :=
  match json_field? fields k with
  | some v => .ok v
  | none => .error ("key not found: " ++ k)

/-- `as_string()` / `value_to<std::string>`: throws unless the value is a
string. -/
def as_string_j : Json → Except String String
  | .str s => .ok s
  | _ => .error "not a string"

/-- `value_to<bool>`: throws unless the value is a bool. -/
def as_bool_j : Json → Except String Bool
  | .bool b => .ok b
  | _ => .error "not a bool"

/-- `to_number<int>` / `to_number<int64_t>`: throws unless the value is a
number. -/
def to_number_int : Json → Except String Int
  | .num n => .ok n
  | _ => .error "not a number"

/-- `value_to<std::vector<std::string>>` applied to the elements of an
array. -/
def as_string_list : List Json → Except String (List String)
  | [] => .ok []
  | j :: rest => do
    let s ← as_string_j j
    let tail ← as_string_list rest
    .ok (s :: tail)

/-- The `ssl::context::method` enumeration, restricted to the names
`ssl_method_from_string` recognises (http_client_config_provider.hpp,
lines 29-61). -/
inductive SslMethod where
  | sslv2
  | sslv2_client
  | sslv2_server
  | sslv3
  | sslv3_client
  | sslv3_server
  | tlsv1
  | tlsv1_client
  | tlsv1_server
  | sslv23
  | sslv23_client
  | sslv23_server
  | tlsv11
  | tlsv11_client
  | tlsv11_server
  | tlsv12
  | tlsv12_client
  | tlsv12_server
  | tlsv13
  | tlsv13_client
  | tlsv13_server
  | tls
  | tls_client
  | tls_server
  deriving Repr, DecidableEq

/-- `cjj365::ssl_method_from_string` (http_client_config_provider.hpp,
lines 29-61): map lookup, throwing `std::invalid_argument` on an unknown
name. -/
def ssl_method_from_string (name : String) : Except String SslMethod :=
  if name = "sslv2" then .ok .sslv2
  else if name = "sslv2_client" then .ok .sslv2_client
  else if name = "sslv2_server" then .ok .sslv2_server
  else if name = "sslv3" then .ok .sslv3
  else if name = "sslv3_client" then .ok .sslv3_client
  else if name = "sslv3_server" then .ok .sslv3_server
  else if name = "tlsv1" then .ok .tlsv1
  else if name = "tlsv1_client" then .ok .tlsv1_client
  else if name = "tlsv1_server" then .ok .tlsv1_server
  else if name = "sslv23" then .ok .sslv23
  else if name = "sslv23_client" then .ok .sslv23_client
  else if name = "sslv23_server" then .ok .sslv23_server
  else if name = "tlsv11" then .ok .tlsv11
  else if name = "tlsv11_client" then .ok .tlsv11_client
  else if name = "tlsv11_server" then .ok .tlsv11_server
  else if name = "tlsv12" then .ok .tlsv12
  else if name = "tlsv12_client" then .ok .tlsv12_client
  else if name = "tlsv12_server" then .ok .tlsv12_server
  else if name = "tlsv13" then .ok .tlsv13
  else if name = "tlsv13_client" then .ok .tlsv13_client
  else if name = "tlsv13_server" then .ok .tlsv13_server
  else if name = "tls" then .ok .tls
  else if name = "tls_client" then .ok .tls_client
  else if name = "tls_server" then .ok .tls_server
  else .error ("Invalid SSL method name: " ++ name)

/-- `cjj365::HttpclientCertificate` (http_client_config_provider.hpp,
lines 107-122). -/
structure HttpclientCertificate where
  cert_content : String
  file_format : String
  deriving Repr, DecidableEq

/-- `tag_invoke(value_to_tag<HttpclientCertificate>)`
(http_client_config_provider.hpp, lines 111-121). -/
def parse_certificate (j : Json) : Except String HttpclientCertificate :=
  match j with
  | .obj fields => do
    let cc ← json_at fields "cert_content" >>= as_string_j
    let ff ← json_at fields "file_format" >>= as_string_j
    .ok ⟨cc, ff⟩
  | _ => .error "Invalid JSON for HttpclientCertificate"

/-- `value_to<std::vector<HttpclientCertificate>>` elementwise. -/
def parse_certificate_list : List Json →
    Except String (List HttpclientCertificate)
  | [] => .ok []
  | j :: rest => do
    let c ← parse_certificate j
    let tail ← parse_certificate_list rest
    .ok (c :: tail)

/-- `cjj365::HttpclientCertificateFile` (http_client_config_provider.hpp,
lines 124-140). -/
structure HttpclientCertificateFile where
  cert_path : String
  file_format : String
  deriving Repr, DecidableEq

/-- `tag_invoke(value_to_tag<HttpclientCertificateFile>)`
(http_client_config_provider.hpp, lines 128-139). -/
def parse_certificate_file (j : Json) :
    Except String HttpclientCertificateFile :=
  match j with
  | .obj fields => do
    let cp ← json_at fields "cert_path" >>= as_string_j
    let ff ← json_at fields "file_format" >>= as_string_j
    .ok ⟨cp, ff⟩
  | _ => .error "Invalid JSON for HttpclientCertificateFile"

/-- `value_to<std::vector<HttpclientCertificateFile>>` elementwise. -/
def parse_certificate_file_list : List Json →
    Except String (List HttpclientCertificateFile)
  | [] => .ok []
  | j :: rest => do
    let c ← parse_certificate_file j
    let tail ← parse_certificate_file_list rest
    .ok (c :: tail)

/-- `tag_invoke(value_to_tag<ProxySetting>)`
(http_client_config_provider.hpp, lines 79-104): `host`, `username` and
`password` are mandatory strings; `port` is optional and may be a string or
a number (formatted to decimal); `disabled` is optional with default false;
`from_env` is never read from JSON. -/
def parse_proxy_setting (j : Json) : Except String ProxySetting :=
  match j with
  | .obj fields => do
    let host ← json_at fields "host" >>= as_string_j
    let port ←
      match json_field? fields "port" with
      | some (.str s) => Except.ok s
      | some (.num n) => Except.ok (toString n)
      | some _ => Except.error "Invalid port type in ProxySetting"
      | none => Except.ok ""
    let username ← json_at fields "username" >>= as_string_j
    let password ← json_at fields "password" >>= as_string_j
    let disabled ←
      match json_field? fields "disabled" with
      | some v => as_bool_j v
      | none => Except.ok false
    .ok { host := host, port := port, username := username,
          password := password, disabled := disabled, from_env := false }
  | _ => .error "Invalid JSON for ProxySetting"

/-- `value_to<std::vector<ProxySetting>>` elementwise. -/
def parse_proxy_list : List Json → Except String (List ProxySetting)
  | [] => .ok []
  | j :: rest => do
    let p ← parse_proxy_setting j
    let tail ← parse_proxy_list rest
    .ok (p :: tail)

/-- `has_unresolved_env` (http_client_config_provider.hpp, lines 203-208):
`s.find("${") != npos`, scanning for a dollar sign immediately followed by
an opening brace (written via its code point 123). -/
def has_unresolved_env_chars : List Char → Bool
  | c1 :: c2 :: rest =>
    if c1 = '$' && c2 = Char.ofNat 123 then true
    else has_unresolved_env_chars (c2 :: rest)
  | _ => false

/-- String wrapper for `has_unresolved_env_chars`. -/
def has_unresolved_env (s : String) : Bool := has_unresolved_env_chars s.toList

/-- `cjj365::HttpclientConfig` (http_client_config_provider.hpp, lines
142-150) with its member initialisers as defaults. -/
structure HttpclientConfig where
  ssl_method : SslMethod := .tlsv12_client
  threads_num : Int := 0
  default_verify_path : Bool := true
  insecure_skip_verify : Bool := false
  verify_paths : List String := []
  certificates : List HttpclientCertificate := []
  certificate_files : List HttpclientCertificateFile := []
  proxy_pool : List ProxySetting := []
  deriving Repr, DecidableEq

/-- Body of the `try` block of
`tag_invoke(value_to_tag<HttpclientConfig>)`
(http_client_config_provider.hpp, lines 166-220), in source order:
optional `ssl_method`; mandatory `threads_num` via `at` + `to_number<int>`
with a negativity check; optional `verify_paths`, `insecure_skip_verify`,
`certificates`, `certificate_files`; optional `proxy_pool` from which
disabled entries and entries with unresolved placeholders in the
credentials are erased. -/
def parse_httpclient_config_inner (j : Json) :
    Except String HttpclientConfig :=
  match j with
  | .obj fields => do
    let ssl ←
      match json_field? fields "ssl_method" with
      | some v => do
        let s ← as_string_j v
        ssl_method_from_string s
      | none => Except.ok SslMethod.tlsv12_client
    let t ← json_at fields "threads_num" >>= to_number_int
    if t < 0 then .error "threads_num must be non-negative"
    else do
      let vps ←
        match json_field? fields "verify_paths" with
        | some (.arr xs) => as_string_list xs
        | some _ => Except.error "not an array"
        | none => Except.ok []
      let insecure ←
        match json_field? fields "insecure_skip_verify" with
        | some v => as_bool_j v
        | none => Except.ok false
      let certs ←
        match json_field? fields "certificates" with
        | some (.arr xs) => parse_certificate_list xs
        | some _ => Except.error "not an array"
        | none => Except.ok []
      let cert_files ←
        match json_field? fields "certificate_files" with
        | some (.arr xs) => parse_certificate_file_list xs
        | some _ => Except.error "not an array"
        | none => Except.ok []
      let pool ←
        match json_field? fields "proxy_pool" with
        | some (.arr xs) => do
          let ps ← parse_proxy_list xs
          let ps1 := ps.filter (fun p => !p.disabled)
          Except.ok (ps1.filter (fun p =>
            !(has_unresolved_env p.username || has_unresolved_env p.password)))
        | some _ => Except.error "not an array"
        | none => Except.ok []
      .ok { ssl_method := ssl, threads_num := t, verify_paths := vps,
            insecure_skip_verify := insecure, certificates := certs,
            certificate_files := cert_files, proxy_pool := pool }
  | _ => .error "HttpclientConfig must be an object."

/-- `tag_invoke(value_to_tag<HttpclientConfig>)`
(http_client_config_provider.hpp, lines 163-225): the `catch` clause wraps
every failure of the body into
`std::invalid_argument("Invalid JSON for HttpclientConfig: " + e.what())`. -/
def parse_httpclient_config (j : Json) : Except String HttpclientConfig :=
  match parse_httpclient_config_inner j with
  | .ok c => .ok c
  | .error msg => .error ("Invalid JSON for HttpclientConfig: " ++ msg)

end cjj365

namespace monad

/-- `c <= ' ' || c == '\t' || ...`-style whitespace test used by the `trim`
lambda in `http_request_io` (http_client_monad.hpp, lines 509-519): space,
tab, newline, carriage return. -/
def is_space_char (c : Char) : Bool :=
  c = ' ' || c = '\t' || c = '\n' || c = '\r'

/-- The `trim` lambda (http_client_monad.hpp, lines 509-519): removes
leading and trailing whitespace. -/
def trim (s : List Char) : List Char :=
  ((s.dropWhile is_space_char).reverse.dropWhile is_space_char).reverse

/-- The `to_lower` lambda (http_client_monad.hpp, lines 521-527):
`std::tolower` on every character (ASCII case mapping). -/
def to_lower (s : List Char) : List Char := s.map Char.toLower

/-- Comma-splitting loop of `should_bypass_env_proxy_for_url`
(http_client_monad.hpp, lines 545-606): successive `find(',')` /
`remove_prefix` rounds, producing the same token sequence as splitting the
list on every comma. -/
def split_on_comma : List Char → List (List Char)
  | [] => [[]]
  | c :: rest =>
    if c = ',' then [] :: split_on_comma rest
    else
      match split_on_comma rest with
      | [] => [[c]]
      | t :: ts => (c :: t) :: ts

/-- `token.rfind(':')` (http_client_monad.hpp, line 558): index of the last
colon, if any. -/
def last_colon_index (token : List Char) : Option Nat :=
  match token.reverse.findIdx? (fun c => c = ':') with
  | none => none
  | some i => some (token.length - 1 - i)

/-- Digit test `'0' <= c && c <= '9'` (http_client_monad.hpp, line 562). -/
def is_ascii_digit (c : Char) : Bool := '0' ≤ c && c ≤ '9'

/-- Optional-port stripping of `should_bypass_env_proxy_for_url`
(http_client_monad.hpp, lines 556-571): if the characters after the last
colon are one or more digits, drop the colon and the digits and re-trim. -/
def strip_port (token : List Char) : List Char :=
  match last_colon_index token with
  | none => token
  | some pos =>
    let port_part := token.drop (pos + 1)
    if !port_part.isEmpty && port_part.all is_ascii_digit then
      trim (token.take pos)
    else token

/-- Per-token host comparison of `should_bypass_env_proxy_for_url`
(http_client_monad.hpp, lines 573-599), on an already lower-cased,
port-stripped token: empty tokens never match; an exact host match wins;
otherwise the token (minus a leading dot, which additionally requires the
preceding host character to be a dot) must be a strictly shorter suffix of
the host. -/
def host_matches_core (host_lc token_lc : List Char) : Bool :=
  if token_lc.isEmpty then false
  else if host_lc = token_lc then true
  else
    let require_dot : Bool := decide (token_lc.head? = some '.')
    let suffix := if require_dot then token_lc.tail else token_lc
    let dot_pos := host_lc.length - suffix.length
    if !suffix.isEmpty && decide (suffix.length < host_lc.length) &&
        decide (host_lc.drop dot_pos = suffix) then
      !require_dot ||
        (decide (0 < dot_pos) &&
          decide (host_lc[dot_pos - 1]? = some '.'))
    else false

/-- Whole-token processing of `should_bypass_env_proxy_for_url`
(http_client_monad.hpp, lines 549-599): trim; skip empty tokens; `*`
matches everything; otherwise strip an optional numeric port, lower-case,
and compare against the host. -/
def token_matches (host_lc token0 : List Char) : Bool :=
  let token := trim token0
  if token.isEmpty then false
  else if token = ['*'] then true
  else host_matches_core host_lc (to_lower (strip_port token))

/-- The `should_bypass_env_proxy_for_url` lambda (http_client_monad.hpp,
lines 529-608).  `no_proxy` is the resolved environment value (the C++
reads `NO_PROXY` falling back to `no_proxy`; the empty string stands for
both unset) and `host` is `url.host()`.  The C++ loop returns true on the
first matching token, which equals an existential over the comma-separated
tokens. -/
def should_bypass_env_proxy_for_url (no_proxy : String) (host : String) :
    Bool :=
  if no_proxy = "" then false
  else if host = "" then false
  else
    let host_lc := to_lower host.toList
    (split_on_comma no_proxy.toList).any (fun tok => token_matches host_lc tok)

/-- The NO_PROXY guard of `http_request_io` (http_client_monad.hpp, lines
620-624): the proxy assigned to the exchange is dropped exactly when it was
inherited from the environment (`from_env`) and the URL's host matches the
NO_PROXY list; otherwise it is used as assigned. -/
def dispatch_proxy (proxy : Option cjj365.ProxySetting)
    (no_proxy host : String) : Option cjj365.ProxySetting :=
  match proxy with
  | some p =>
    if p.from_env && should_bypass_env_proxy_for_url no_proxy host then none
    else some p
  | none => none

end monad

namespace client_async

/-- HTTP request methods distinguished by the redirect follower
(`boost::beast::http::verb`): only `get` and `head` are compared against. -/
inductive Verb where
  | get
  | head
  | post
  | put
  | delete_
  deriving Repr, DecidableEq

/-- The parts of an HTTP response the redirect follower of
`HttpClientManager::http_request` inspects: `result_int()` and the
`Location` header. -/
structure HttpResponse where
  status : Nat
  location : Option String
  deriving Repr, DecidableEq

/-- `HttpClientManager::is_redirect_status` (http_client_manager.hpp,
lines 100-103). -/
def is_redirect_status (status_code : Nat) : Bool :=
  status_code == 301 || status_code == 302 || status_code == 303 ||
  status_code == 307 || status_code == 308

/-- The `*step` / `cb` loop of `HttpClientManager::http_request`
(http_client_manager.hpp, lines 205-301).  `env u` is the completion
`(resp, ec)` a session delivers for a request to URL `u` (the server
environment); `resolve` stands for `resolve_redirect_url`, whose URL
arithmetic is external to this claim and is modelled as an oracle from base
URL and `Location` value to the next URL.  `redirects_left` starts at 5.
The callback delivers to the user when `ec != 0`, the response is absent,
`follow_redirect` is false or the budget is exhausted; then when the method
is neither GET nor HEAD; then when the status is not a redirect status, the
`Location` header is missing, or resolution fails; otherwise it decrements
the budget and re-enters `*step` with the resolved URL.  Returns the number
of requests dispatched and the `(resp, ec)` delivered to the user
callback. -/
def http_request_go (env : String → Option HttpResponse × Int)
    (resolve : String → String → Option String) (method : Verb)
    (follow_redirect : Bool) :
    Nat → String → Nat × (Option HttpResponse × Int)
  | redirects_left, url =>
    let completion := env url
    match completion with
    | (resp?, ec) =>
      if ec ≠ 0 then (1, (resp?, ec))
      else
        match resp? with
        | none => (1, (none, ec))
        | some resp =>
          if !follow_redirect then (1, (some resp, ec))
          else
            match redirects_left with
            | 0 => (1, (some resp, ec))
            | rl + 1 =>
              if method ≠ .get ∧ method ≠ .head then (1, (some resp, ec))
              else if !is_redirect_status resp.status then (1, (some resp, ec))
              else
                match resp.location with
                | none => (1, (some resp, ec))
                | some loc =>
                  match resolve url loc with
                  | none => (1, (some resp, ec))
                  | some next =>
                    let p := http_request_go env resolve method
                      follow_redirect rl next
                    (p.1 + 1, p.2)

/-- Entry of `HttpClientManager::http_request` (http_client_manager.hpp,
lines 220-300): `redirects_left` initialised to 5 and `(*step)()` invoked
once. -/
def http_request_run (env : String → Option HttpResponse × Int)
    (resolve : String → String → Option String) (method : Verb)
    (follow_redirect : Bool) (url : String) :
    Nat × (Option HttpResponse × Int) :=
  http_request_go env resolve method follow_redirect 5 url

/-- Proof auxiliary: the URL reached after following `n` redirects when
every response redirects and `nextOf` is the resolved next URL. -/
def iterate_next (nextOf : String → String) : Nat → String → String
  | 0, u => u
  | n + 1, u => iterate_next nextOf n (nextOf u)

end client_async

/-!
Theorems about the claims.  Each claim of the specification gets exactly
one theorem below (plus, where needed, a counterexample and a witness).
-/

section Claims

open monad cjj365 client_async

/-- C1: the claim states that every IO invokes its callback exactly once
under every outcome of its internal timers, including a timer that reports
an error.  This theorem evaluates the embedded `timeout` and `delay`
combinators at their failing schedule: when the `timeout` timer's handler
runs with a non-zero error code before the wrapped IO completes, the
handler sets the `fired` flag without invoking the callback and the wrapped
IO's later result is then discarded, so the callback is invoked zero times
(first conjunct).  The remaining conjuncts show the schedules on which the
callback is invoked exactly once, and that `delay` handles the same timer
error by delivering `Err{1, ...}`, exposing the `timeout` branch as the
odd one out. -/
theorem timeout_timer_error_drops_callback :
    timeout_run .timer_first (.errors "Operation canceled")
        (.Ok (7 : Nat)) = [] ∧
    timeout_run .timer_first .fires (.Ok (7 : Nat)) =
      [.Err { code := 2, what := "Operation timed out" }] ∧
    timeout_run .self_first (.errors "Operation canceled") (.Ok (7 : Nat)) =
      [.Ok 7] ∧
    delay_run .timer_first (.errors "Operation canceled") (.Ok (7 : Nat)) =
      [.Err { code := 1, what := "Timer error: Operation canceled" }] ∧
    delay_run .self_first (.errors "Operation canceled") (.Ok (7 : Nat)) =
      [.Err { code := 1, what := "Timer error: Operation canceled" }] ∧
    delay_run .timer_first .fires (.Ok (7 : Nat)) = [.Ok 7] ∧
    delay_run .self_first .fires (.Ok (7 : Nat)) = [.Ok 7] :=
  ⟨rfl, rfl, rfl, rfl, rfl, rfl, rfl⟩

/-- Helper for C2: the `poll_if` loop under runs that are all Ok and never
satisfied performs one run per remaining unit of fuel and then delivers the
exhaustion error. -/
theorem poll_if_go_all_ok_unsatisfied {T : Type} (vals : Nat → T)
    (satisfied : T → Bool) (retry_on_error : Error → Bool)
    (max_attempts : Int) (hsat : ∀ k, satisfied (vals k) = false) :
    ∀ fuel attempt : Nat, (attempt : Int) + fuel = max_attempts →
      poll_if_go (fun k => .Ok (vals k)) satisfied retry_on_error
        max_attempts fuel attempt =
        (fuel, .Err { code := 3, what := "Polling attempts exhausted" }) := by
  intro fuel
  induction fuel with
  | zero =>
    intro attempt h
    unfold poll_if_go
    split
    · rfl
    · rfl
  | succ fuel ih =>
    intro attempt h
    unfold poll_if_go
    rw [if_neg (by omega)]
    simp only
    rw [hsat (attempt + 1)]
    simp only [Bool.false_eq_true, if_false]
    rw [ih (attempt + 1) (by omega)]

/-- C2: for every IO whose successive runs all deliver Ok values, a
predicate that rejects every delivered value and `max_attempts >= 1`,
`poll_if` runs the underlying IO exactly `max_attempts` times and then
invokes the callback with `Err{3, "Polling attempts exhausted"}`. -/
theorem poll_if_exhausts_when_never_satisfied {T : Type} (vals : Nat → T)
    (satisfied : T → Bool) (retry_on_error : Error → Bool)
    (max_attempts : Int) (hmax : 1 ≤ max_attempts)
    (hsat : ∀ k, satisfied (vals k) = false) :
    poll_if_run (fun k => .Ok (vals k)) satisfied retry_on_error
      max_attempts =
      (max_attempts.toNat,
        .Err { code := 3, what := "Polling attempts exhausted" }) := by
  unfold poll_if_run
  exact poll_if_go_all_ok_unsatisfied vals satisfied retry_on_error
    max_attempts hsat max_attempts.toNat 0 (by omega)

/-- Witness for C2 at `max_attempts = 3`. -/
theorem poll_if_exhausts_when_never_satisfied_witness :
    (1 : Int) ≤ 3 ∧
    poll_if_run (fun k => .Ok k) (fun _ => false) (fun _ => true) 3 =
      (3, .Err { code := 3, what := "Polling attempts exhausted" }) :=
  ⟨by decide,
    poll_if_exhausts_when_never_satisfied (fun k => k) (fun _ => false)
      (fun _ => true) 3 (by decide) (fun _ => rfl)⟩

/-- C3: a user function that throws synchronously is translated to
`Err{-1, what}` by `map`, `Err{-2, what}` by `then` and `Err{-3, what}` by
`catch_then`; and when the predecessor delivers an error, `map` forwards
that error unchanged without consulting the user function (the last
conjunct holds for every `f`, so the outcome cannot depend on it). -/
theorem map_then_catch_exception_codes {T U : Type} (v : T) (e : Error)
    (msg : String) :
    map_run (U := U) (.Ok v) (fun _ => .error msg) =
      .Err { code := -1, what := msg } ∧
    then_run (U := U) (.Ok v) (fun _ => .error msg) =
      .Err { code := -2, what := msg } ∧
    catch_then_run (T := T) (.Err e) (fun _ => .error msg) =
      .Err { code := -3, what := msg } ∧
    ∀ f : T → Except String U, map_run (.Err e) f = .Err e :=
  ⟨rfl, rfl, rfl, fun _ => rfl⟩

/-- C4 counterexample: the claim asserts that `error()` on an Ok value
fails loudly with a diagnostic for every `Result`, including the
`Result<void,E>` specialisation.  But `Result<void,E>::error()` is
`return *error_;`, and dereferencing an empty `std::optional` is undefined
behaviour, not a diagnosed failure: the access does not throw. -/
theorem void_result_error_on_ok_not_loud :
    VoidResult.error (VoidResult.Ok (E := Error)) = .undefined ∧
    fails_loudly_spec (VoidResult.error (VoidResult.Ok (E := Error))) =
      false :=
  ⟨rfl, rfl⟩

/-- C4 (amended): for the primary `Result<T,E>` template, `value()` on an
Err and `error()` on an Ok throw `std::bad_variant_access` (a loud,
diagnosed failure), and `ok_ptr()`/`err_ptr()` on the wrong state return a
null pointer without failing; but `Result<void,E>::error()` on an Ok value
dereferences an empty optional, which is undefined behaviour rather than a
guaranteed loud failure. -/
theorem result_wrong_state_accessors {T E : Type} (v : T) (e : E) :
    Result.value (.Err (T := T) e) =
      .throws "std::bad_variant_access" ∧
    fails_loudly_spec (Result.value (.Err (T := T) e)) = true ∧
    Result.error (.Ok (E := E) v) = .throws "std::bad_variant_access" ∧
    fails_loudly_spec (Result.error (.Ok (E := E) v)) = true ∧
    Result.ok_ptr (.Err (T := T) e) = none ∧
    Result.err_ptr (.Ok (E := E) v) = none ∧
    VoidResult.error (VoidResult.Ok (E := E)) = .undefined ∧
    fails_loudly_spec (VoidResult.error (VoidResult.Ok (E := E))) = false :=
  ⟨rfl, rfl, rfl, rfl, rfl, rfl, rfl, rfl⟩

/-- C5 counterexample: with `decide` returning `Fail` without an explicit
error and an Ok job result, the delivered message is
"poll_with_state: fail requested without error", not the claim's
"poll_with_state: fail without error". -/
theorem poll_with_state_fail_message_differs :
    handle_result (T := Nat) 3 10 1
        (.ok ⟨.fail, none, none⟩) (.ok { code := 9, what := "exhausted" })
        (.Ok 0) =
      .deliver (.Err ⟨2, "poll_with_state: fail requested without error", "", 500⟩) ∧
    "poll_with_state: fail requested without error" ≠
      "poll_with_state: fail without error" :=
  ⟨rfl, by decide⟩

/-- C5 (amended): when `decide` returns `Fail(error?)`, `poll_with_state`
emits the explicit error if one was supplied; otherwise the job's error if
the job's result was Err; otherwise
`Err{2, "poll_with_state: fail requested without error"}`. -/
theorem poll_with_state_fail_error_priority {T : Type} (max_attempts : Int)
    (default_interval : Nat) (attempt_no : Int) (ctrl : PollControl)
    (oe : Except String Error) (r : Result T Error)
    (hk : ctrl.kind = .fail) :
    handle_result max_attempts default_interval attempt_no (.ok ctrl) oe r =
      .deliver (.Err (ctrl.fail_error.getD
        (match r with
         | .Err e => e
         | .Ok _ =>
           ⟨2, "poll_with_state: fail requested without error", "", 500⟩))) := by
  obtain ⟨k, ra, fe⟩ := ctrl
  change k = PollControlKind.fail at hk
  subst hk
  cases fe with
  | some e => rfl
  | none => cases r <;> rfl

/-- Witness for C5 at concrete inputs (explicit error present and absent). -/
theorem poll_with_state_fail_error_priority_witness :
    handle_result (T := Nat) 3 10 1
        (.ok (PollControl.mk_fail { code := 5, what := "explicit" }))
        (.ok { code := 9, what := "exhausted" })
        (.Err { code := 7, what := "job" }) =
      .deliver (.Err ((PollControl.mk_fail
          { code := 5, what := "explicit" }).fail_error.getD
        { code := 7, what := "job" })) :=
  poll_with_state_fail_error_priority 3 10 1
    (PollControl.mk_fail { code := 5, what := "explicit" })
    (.ok { code := 9, what := "exhausted" })
    (.Err { code := 7, what := "job" }) rfl

/-- C8 counterexample: two `ProxySetting` values that differ only in
`disabled` are unequal under `operator==`, but `std::hash` combines only
the four string hashes, so they hash identically (shown here with a
concrete string hash; the hash expression never reads `disabled` or
`from_env`). -/
theorem proxy_setting_hash_ignores_disabled :
    ProxySetting.eq ⟨"h", "p", "u", "w", false, false⟩
      ⟨"h", "p", "u", "w", true, false⟩ = false ∧
    ProxySetting.hash_value String.length ⟨"h", "p", "u", "w", false, false⟩ =
      ProxySetting.hash_value String.length
        ⟨"h", "p", "u", "w", true, false⟩ ∧
    ProxySetting.eq ⟨"h", "p", "u", "w", false, false⟩
      ⟨"h", "p", "u", "w", false, true⟩ = false ∧
    ProxySetting.hash_value String.length ⟨"h", "p", "u", "w", false, false⟩ =
      ProxySetting.hash_value String.length
        ⟨"h", "p", "u", "w", false, true⟩ :=
  ⟨rfl, rfl, rfl, rfl⟩

/-- C8 (amended): `ProxySetting` equality compares the four string fields
plus `disabled` and `from_env` (it coincides with structural equality), but
the hash is computed over the four string fields only: any two settings
agreeing on `host`, `port`, `username` and `password` hash identically for
every underlying string hash, whatever their `disabled` and `from_env`
flags. -/
theorem proxy_setting_eq_and_hash_fields :
    (∀ a b : ProxySetting, ProxySetting.eq a b = true ↔ a = b) ∧
    (∀ (hs : String → Nat) (a b : ProxySetting),
      a.host = b.host → a.port = b.port → a.username = b.username →
      a.password = b.password →
      ProxySetting.hash_value hs a = ProxySetting.hash_value hs b) := by
  constructor
  · intro a b
    cases a
    cases b
    simp [ProxySetting.eq, Bool.and_eq_true, beq_iff_eq, ProxySetting.mk.injEq,
      and_assoc]
  · intro hs a b h1 h2 h3 h4
    unfold ProxySetting.hash_value
    rw [h1, h2, h3, h4]

/-- Witness for C8 at concrete settings. -/
theorem proxy_setting_eq_and_hash_fields_witness :
    (ProxySetting.eq ⟨"h", "p", "u", "w", false, false⟩
        ⟨"h", "p", "u", "w", false, false⟩ = true ↔
      (⟨"h", "p", "u", "w", false, false⟩ : ProxySetting) =
        ⟨"h", "p", "u", "w", false, false⟩) ∧
    ProxySetting.hash_value String.length ⟨"h", "p", "u", "w", true, false⟩ =
      ProxySetting.hash_value String.length
        ⟨"h", "p", "u", "w", false, true⟩ :=
  ⟨proxy_setting_eq_and_hash_fields.1 _ _,
    proxy_setting_eq_and_hash_fields.2 String.length
      ⟨"h", "p", "u", "w", true, false⟩ ⟨"h", "p", "u", "w", false, true⟩
      rfl rfl rfl rfl⟩

/-- Helper for C9: every entry into `try_run` performs a run of the
underlying IO before comparing the attempt counter with `max_attempts`, so
the run count of `retry_exponential_go` is at least one. -/
theorem retry_exponential_go_runs_at_least_once {T : Type}
    (results : Nat → Result T Error) (should_retry : Error → Bool)
    (ma : Int) (fuel attempt d : Nat) :
    1 ≤ (retry_exponential_go results should_retry ma fuel attempt d).1 := by
  unfold retry_exponential_go
  split <;> simp only <;> split <;> try simp
  all_goals split <;> simp

/-- C9: `poll_if` with `max_attempts <= 0` delivers
`Err{3, "Polling attempts exhausted"}` without ever running the underlying
IO (the guard `*attempt >= max_attempts` fires on the very first
`do_attempt`), whereas `retry_exponential_if` runs the underlying IO at
least once for every `max_attempts`, because `try_run` performs a run
before any comparison with `max_attempts`. -/
theorem poll_if_nonpositive_never_runs {T : Type}
    (results : Nat → Result T Error) (satisfied : T → Bool)
    (retry_on_error : Error → Bool) (max_attempts : Int)
    (hmax : max_attempts ≤ 0) :
    poll_if_run results satisfied retry_on_error max_attempts =
      (0, .Err { code := 3, what := "Polling attempts exhausted" }) ∧
    ∀ (results' : Nat → Result T Error) (should_retry : Error → Bool)
      (ma : Int) (d : Nat),
      1 ≤ (retry_exponential_run results' should_retry ma d).1 := by
  constructor
  · unfold poll_if_run poll_if_go
    rw [if_pos (by omega)]
  · intro results' should_retry ma d
    exact retry_exponential_go_runs_at_least_once results' should_retry ma
      ma.toNat 0 d

/-- Witness for C9 at `max_attempts = 0` (and `-3`): the polling model
performs zero runs while the retry model still performs one. -/
theorem poll_if_nonpositive_never_runs_witness :
    poll_if_run (T := Nat) (fun k => .Ok k) (fun _ => true) (fun _ => true)
        0 =
      (0, .Err { code := 3, what := "Polling attempts exhausted" }) ∧
    1 ≤ (retry_exponential_run (T := Nat)
        (fun _ => .Err { code := 42, what := "transient" }) (fun _ => true)
        0 5).1 :=
  have h := poll_if_nonpositive_never_runs (T := Nat) (fun k => .Ok k)
    (fun _ => true) (fun _ => true) 0 (by decide)
  ⟨h.1, h.2 (fun _ => .Err { code := 42, what := "transient" })
    (fun _ => true) 0 5⟩

/-- Helper for C6: in an environment where every response is a followable
redirect, the follower dispatches one request per unit of redirect budget
plus the final one, and delivers the response of the URL reached after
exhausting the budget. -/
theorem http_request_go_all_redirect
    (env : String → Option HttpResponse × Int)
    (resolve : String → String → Option String)
    (respOf : String → HttpResponse) (nextOf : String → String)
    (henv : ∀ u, env u = (some (respOf u), 0))
    (hred : ∀ u, is_redirect_status (respOf u).status = true)
    (hloc : ∀ u, ∃ l, (respOf u).location = some l ∧
      resolve u l = some (nextOf u)) :
    ∀ (rl : Nat) (url : String),
      http_request_go env resolve .get true rl url =
        (rl + 1, (some (respOf (iterate_next nextOf rl url)), 0)) := by
  intro rl
  induction rl with
  | zero =>
    intro url
    simp [http_request_go, henv, iterate_next]
  | succ rl ih =>
    intro url
    obtain ⟨l, hl, hr⟩ := hloc url
    simp [http_request_go, henv, hred, hl, hr, iterate_next, ih]

/-- C6: through `HttpClientManager::http_request` with `follow_redirect`,
a request whose method is neither GET nor HEAD performs exactly one
round-trip and returns the response as-is, 3xx or not (first conjunct);
and when every response is a 3xx with a resolvable `Location` (a redirect
cycle), a GET terminates after following exactly 5 redirects (6 requests)
and delivers the last 3xx response to the caller (second conjunct). -/
theorem http_request_redirect_props
    (env : String → Option HttpResponse × Int)
    (resolve : String → String → Option String)
    (respOf : String → HttpResponse) (nextOf : String → String)
    (url : String) :
    (∀ (method : Verb) (fl : Bool), method ≠ .get → method ≠ .head →
      http_request_run env resolve method fl url = (1, env url)) ∧
    ((∀ u, env u = (some (respOf u), 0)) →
     (∀ u, is_redirect_status (respOf u).status = true) →
     (∀ u, ∃ l, (respOf u).location = some l ∧
        resolve u l = some (nextOf u)) →
     http_request_run env resolve .get true url =
        (6, (some (respOf (iterate_next nextOf 5 url)), 0)) ∧
     is_redirect_status (respOf (iterate_next nextOf 5 url)).status =
       true) := by
  constructor
  · intro method fl hm hh
    rcases hc : env url with ⟨resp?, ec⟩
    by_cases hec : ec = 0
    · subst hec
      cases resp? with
      | none => simp [http_request_run, http_request_go, hc]
      | some resp =>
        cases fl with
        | false => simp [http_request_run, http_request_go, hc]
        | true => simp [http_request_run, http_request_go, hc, hm, hh]
    · simp [http_request_run, http_request_go, hc, hec]
  · intro henv hred hloc
    refine ⟨?_, hred _⟩
    exact http_request_go_all_redirect env resolve respOf nextOf henv hred
      hloc 5 url

/-- Witness for C6: a server that always answers `302 Location: /n` makes a
POST return the 302 in one round-trip, while a GET follows 5 redirects and
then delivers the 302. -/
theorem http_request_redirect_props_witness :
    http_request_run (fun _ => (some ⟨302, some "/n"⟩, 0)) (fun _ l => some l)
        .post true "http://s/redir" = (1, (some ⟨302, some "/n"⟩, 0)) ∧
    http_request_run (fun _ => (some ⟨302, some "/n"⟩, 0)) (fun _ l => some l)
        .get true "http://s/redir" = (6, (some ⟨302, some "/n"⟩, 0)) :=
  have h := http_request_redirect_props (fun _ => (some ⟨302, some "/n"⟩, 0))
    (fun _ l => some l) (fun _ => ⟨302, some "/n"⟩) (fun _ => "/n")
    "http://s/redir"
  ⟨h.1 .post true (by decide) (by decide),
   (h.2 (fun _ => rfl) (fun _ => rfl) (fun _ => ⟨"/n", rfl, rfl⟩)).1⟩

/-- C7 counterexample: the claim says a NO_PROXY token without a leading
dot matches only the exact host or a subdomain of it, but the code performs
a raw suffix comparison with no dot-boundary check: the token `example.com`
also matches the host `notexample.com`, which is neither `example.com` nor
one of its subdomains (it does not end in `.example.com`). -/
theorem no_proxy_plain_token_matches_non_subdomain :
    should_bypass_env_proxy_for_url "example.com" "notexample.com" = true ∧
    ("notexample.com" : String) ≠ "example.com" ∧
    (".example.com".toList.isSuffixOf "notexample.com".toList) = false :=
  ⟨rfl, by decide, by decide⟩

/-- Helper for C7: on a non-empty token other than the lone dot, the
index-arithmetic host comparison of `should_bypass_env_proxy_for_url`
(exact match, or strictly-shorter suffix with the dot-boundary check only
for tokens with a leading dot) is exactly the suffix relation: the token
matches the host iff the token is a suffix of the host. -/
theorem host_matches_core_eq_suffix (host tok : List Char)
    (h1 : tok ≠ []) (h2 : tok ≠ ['.']) :
    host_matches_core host tok = true ↔ tok <:+ host := by
  have htok : tok.isEmpty = false := List.isEmpty_eq_false.mpr h1
  by_cases heq : host = tok
  · subst heq
    simp [host_matches_core, htok]
  · by_cases hdot : tok.head? = some '.'
    · obtain ⟨rest, rfl⟩ : ∃ rest, tok = '.' :: rest := by
        cases tok with
        | nil => exact absurd rfl h1
        | cons c cs =>
          refine ⟨cs, ?_⟩
          have hc : c = '.' := by simpa using hdot
          rw [hc]
      have hrest : rest ≠ [] := by
        intro hr
        exact h2 (by rw [hr])
      unfold host_matches_core
      simp only [htok, Bool.false_eq_true, if_false, heq, List.head?_cons,
        List.tail_cons, decide_eq_true_eq, List.isEmpty_eq_false,
        Bool.not_eq_true', Bool.and_eq_true, Bool.or_eq_true, ne_eq,
        if_true, decide_True]
      constructor
      · intro h
        by_cases hC : (¬rest = [] ∧ rest.length < host.length) ∧
            List.drop (host.length - rest.length) host = rest
        · rw [if_pos hC] at h
          simp only [Bool.not_true, Bool.false_or, Bool.and_eq_true,
            decide_eq_true_eq] at h
          obtain ⟨hpos, hget⟩ := h
          obtain ⟨⟨hr0, hlt⟩, hdrop⟩ := hC
          have hidx : host.length - rest.length - 1 < host.length := by omega
          have hdropd : List.drop (host.length - rest.length - 1) host =
              '.' :: rest := by
            rw [List.getElem?_eq_getElem hidx] at hget
            rw [List.drop_eq_getElem_cons hidx]
            rw [show host.length - rest.length - 1 + 1 =
              host.length - rest.length from by omega]
            rw [hdrop, Option.some.inj hget]
          refine List.suffix_iff_eq_drop.mpr ?_
          rw [show host.length - ('.' :: rest).length =
            host.length - rest.length - 1 from by
              simp only [List.length_cons]
              omega]
          exact hdropd.symm
        · rw [if_neg hC] at h
          simp at h
      · intro hs
        have hle := hs.length_le
        have hne : ('.' :: rest).length ≠ host.length := by
          intro hl
          exact heq ((hs.eq_of_length hl).symm)
        have hlt1 : ('.' :: rest).length < host.length :=
          lt_of_le_of_ne hle hne
        have hlt : rest.length < host.length := by
          simp only [List.length_cons] at hlt1
          omega
        have hdropd : List.drop (host.length - rest.length - 1) host =
            '.' :: rest := by
          have hd := (List.suffix_iff_eq_drop.mp hs).symm
          rw [show host.length - ('.' :: rest).length =
            host.length - rest.length - 1 from by
              simp only [List.length_cons]
              omega] at hd
          exact hd
        have hdrop : List.drop (host.length - rest.length) host = rest := by
          have hdd : List.drop 1
              (List.drop (host.length - rest.length - 1) host) =
              List.drop (host.length - rest.length) host := by
            rw [List.drop_drop]
            congr 1
            omega
          rw [← hdd, hdropd]
          rfl
        have hget : host[host.length - rest.length - 1]? = some '.' := by
          have h0 := List.getElem?_drop host (host.length - rest.length - 1) 0
          rw [hdropd] at h0
          simpa using h0.symm
        rw [if_pos ⟨⟨hrest, hlt⟩, hdrop⟩]
        simp only [Bool.not_true, Bool.false_or, Bool.and_eq_true,
          decide_eq_true_eq]
        exact ⟨by omega, hget⟩
    · unfold host_matches_core
      simp only [htok, Bool.false_eq_true, if_false, heq, hdot,
        decide_eq_true_eq, List.isEmpty_eq_false, Bool.not_eq_true',
        Bool.and_eq_true, Bool.or_eq_true, ne_eq, if_false, decide_False]
      constructor
      · intro h
        by_cases hC : (True ∧ tok.length < host.length) ∧
            List.drop (host.length - tok.length) host = tok
        · exact List.suffix_iff_eq_drop.mpr hC.2.symm
        · rw [if_neg hC] at h
          simp at h
      · intro hs
        have hle := hs.length_le
        have hne : tok.length ≠ host.length := by
          intro hl
          exact heq ((hs.eq_of_length hl).symm)
        have hlt : tok.length < host.length := lt_of_le_of_ne hle hne
        have hdrop : List.drop (host.length - tok.length) host = tok :=
          (List.suffix_iff_eq_drop.mp hs).symm
        rw [if_pos ⟨⟨trivial, hlt⟩, hdrop⟩]
        simp

/-- C7 (amended): the NO_PROXY environment list is consulted only for
proxies with `from_env = true` (an explicitly configured proxy is used even
for NO_PROXY hosts); `*` matches every host; an optional numeric `:port`
suffix is stripped from a token before matching; and a token (after
trimming, port-stripping and ASCII lower-casing) matches the host exactly
when the token is a suffix of the host — so a token with a leading dot
matches only proper subdomains, but a plain token also matches hosts of
which it is a bare suffix without a dot boundary, such as `example.com`
matching `notexample.com`. -/
theorem no_proxy_bypass_amended :
    (∀ (p : ProxySetting) (np host : String), p.from_env = false →
      dispatch_proxy (some p) np host = some p) ∧
    (∀ host : String, host ≠ "" →
      should_bypass_env_proxy_for_url "*" host = true) ∧
    (∀ host_lc : List Char,
      token_matches host_lc ("example.com:8080".toList) =
        token_matches host_lc ("example.com".toList)) ∧
    (∀ host_lc token_lc : List Char, token_lc ≠ [] → token_lc ≠ ['.'] →
      (host_matches_core host_lc token_lc = true ↔
        token_lc <:+ host_lc)) := by
  refine ⟨?_, ?_, ?_, host_matches_core_eq_suffix⟩
  · intro p np host h
    simp [dispatch_proxy, h]
  · intro host h
    unfold should_bypass_env_proxy_for_url
    rw [if_neg (by decide), if_neg h]
    rfl
  · intro host_lc
    rfl

/-- Witness for C7 at concrete proxies, hosts and tokens. -/
theorem no_proxy_bypass_amended_witness :
    dispatch_proxy (some ⟨"p", "80", "", "", false, false⟩) "example.com"
        "api.example.com" = some ⟨"p", "80", "", "", false, false⟩ ∧
    should_bypass_env_proxy_for_url "*" "api.example.com" = true ∧
    (host_matches_core ("a.example.com".toList) (".example.com".toList) =
        true ↔ (".example.com".toList) <:+ ("a.example.com".toList)) :=
  ⟨no_proxy_bypass_amended.1 ⟨"p", "80", "", "", false, false⟩ "example.com"
      "api.example.com" rfl,
   no_proxy_bypass_amended.2.1 "api.example.com" (by decide),
   no_proxy_bypass_amended.2.2.2 ("a.example.com".toList)
     (".example.com".toList) (by decide) (by decide)⟩

/-- Helper for C10: bind on an ok `Except` applies the continuation. -/
theorem except_ok_bind {A B : Type} (a : A) (f : A → Except String B) :
    (Except.ok a : Except String A) >>= f = f a := rfl

/-- Helper for C10: bind on an error `Except` short-circuits. -/
theorem except_error_bind {A B : Type} (m : String)
    (f : A → Except String B) :
    (Except.error m : Except String A) >>= f = .error m := rfl

/-- C10: parsing an `HttpclientConfig` profile fails whenever the profile
object lacks `threads_num` (whatever else it contains) or `threads_num` is
negative — the minimal profile with a negative count fails with exactly
`invalid_argument` wrapping "threads_num must be non-negative" — while a
profile containing only a non-negative `threads_num` parses successfully
with every other recognised key (`ssl_method`, `verify_paths`,
`insecure_skip_verify`, `certificates`, `certificate_files`, `proxy_pool`)
taking its default, so `threads_num` is the only mandatory field. -/
theorem httpclient_config_threads_num_mandatory :
    (∀ fields : List (String × Json),
      json_field? fields "threads_num" = none →
      ∃ msg, parse_httpclient_config (.obj fields) = .error msg) ∧
    (∀ (fields : List (String × Json)) (n : Int),
      json_field? fields "threads_num" = some (.num n) → n < 0 →
      ∃ msg, parse_httpclient_config (.obj fields) = .error msg) ∧
    (∀ n : Int, n < 0 →
      parse_httpclient_config (.obj [("threads_num", .num n)]) =
        .error
          "Invalid JSON for HttpclientConfig: threads_num must be non-negative") ∧
    (∀ n : Int, 0 ≤ n →
      parse_httpclient_config (.obj [("threads_num", .num n)]) =
        .ok { threads_num := n }) := by
  refine ⟨?_, ?_, ?_, ?_⟩
  · intro fields h
    unfold parse_httpclient_config parse_httpclient_config_inner
    cases hssl : json_field? fields "ssl_method" with
    | none =>
      simp only [hssl, json_at, h, except_ok_bind, except_error_bind]
      exact ⟨_, rfl⟩
    | some v =>
      cases hsv : as_string_j v with
      | error m =>
        simp only [hssl, hsv, json_at, h, except_ok_bind, except_error_bind]
        exact ⟨_, rfl⟩
      | ok s =>
        cases hsm : ssl_method_from_string s with
        | error m =>
          simp only [hssl, hsv, hsm, json_at, h, except_ok_bind,
            except_error_bind]
          exact ⟨_, rfl⟩
        | ok ssl =>
          simp only [hssl, hsv, hsm, json_at, h, except_ok_bind,
            except_error_bind]
          exact ⟨_, rfl⟩
  · intro fields n h hneg
    unfold parse_httpclient_config parse_httpclient_config_inner
    cases hssl : json_field? fields "ssl_method" with
    | none =>
      simp only [hssl, json_at, h, except_ok_bind, except_error_bind,
        to_number_int, if_pos hneg]
      exact ⟨_, rfl⟩
    | some v =>
      cases hsv : as_string_j v with
      | error m =>
        simp only [hssl, hsv, json_at, h, except_ok_bind, except_error_bind]
        exact ⟨_, rfl⟩
      | ok s =>
        cases hsm : ssl_method_from_string s with
        | error m =>
          simp only [hssl, hsv, hsm, json_at, h, except_ok_bind,
            except_error_bind]
          exact ⟨_, rfl⟩
        | ok ssl =>
          simp only [hssl, hsv, hsm, json_at, h, except_ok_bind,
            except_error_bind, to_number_int, if_pos hneg]
          exact ⟨_, rfl⟩
  · intro n hneg
    unfold parse_httpclient_config parse_httpclient_config_inner
    simp [json_field?, json_at, except_ok_bind, except_error_bind,
      to_number_int, hneg]
  · intro n hpos
    unfold parse_httpclient_config parse_httpclient_config_inner
    simp only [json_field?, json_at,
      show ("threads_num" = "ssl_method") = False from by simp,
      show ("threads_num" = "threads_num") = True from by simp,
      show ("threads_num" = "verify_paths") = False from by simp,
      show ("threads_num" = "insecure_skip_verify") = False from by simp,
      show ("threads_num" = "certificates") = False from by simp,
      show ("threads_num" = "certificate_files") = False from by simp,
      show ("threads_num" = "proxy_pool") = False from by simp,
      if_false, if_true, except_ok_bind, except_error_bind, to_number_int]
    rw [if_neg (by omega : ¬(n < 0))]

/-- Witness for C10: a minimal profile with `threads_num = -1` fails with
the wrapped diagnostic, and with `threads_num = 4` parses to the default
configuration. -/
theorem httpclient_config_threads_num_mandatory_witness :
    parse_httpclient_config (.obj [("threads_num", .num (-1))]) =
      .error
        "Invalid JSON for HttpclientConfig: threads_num must be non-negative" ∧
    parse_httpclient_config (.obj [("threads_num", .num 4)]) =
      .ok { threads_num := 4 } :=
  ⟨httpclient_config_threads_num_mandatory.2.2.1 (-1) (by decide),
   httpclient_config_threads_num_mandatory.2.2.2 4 (by decide)⟩

end Claims
